import Mathlib

/-!
Verification of the ov13855 camera sensor driver core
(drivers/media/i2c/ov13855.c) against its natural-language specification.

The driver's data model (mode catalog, link-frequency configs, control
ranges), its register transport and its streaming/power state machine are
embedded shallowly below.  C `u32`/`int` arithmetic is modelled on `Nat`/`Int`
with explicit reduction modulo `2 ^ 32` where the C code can wrap.
-/

namespace OV13855

/-! ### Register-map and timing constants (ov13855.c lines 32–104) -/

def OV13855_REG_VALUE_08BIT : Nat := 1
def OV13855_REG_VALUE_16BIT : Nat := 2
def OV13855_REG_VALUE_24BIT : Nat := 3

def OV13855_REG_MODE_SELECT : Nat := 0x0100
def OV13855_MODE_STANDBY : Nat := 0x00
def OV13855_MODE_STREAMING : Nat := 0x01

def OV13855_REG_SOFTWARE_RST : Nat := 0x0103
def OV13855_SOFTWARE_RST : Nat := 0x01

def OV13855_REG_VTS : Nat := 0x380e
def OV13855_VTS_30FPS : Nat := 0x0c8e
def OV13855_VTS_60FPS : Nat := 0x0648
def OV13855_VTS_MAX : Nat := 0x7fff
def OV13855_VBLANK_MIN : Nat := 56

def OV13855_PPL_540MHZ : Nat := 2244
def OV13855_PPL_1080MHZ : Nat := 4488

def OV13855_REG_EXPOSURE : Nat := 0x3500
def OV13855_EXPOSURE_MIN : Nat := 4
def OV13855_EXPOSURE_STEP : Nat := 1
def OV13855_EXPOSURE_DEFAULT : Nat := 0x640

def OV13855_REG_TEST_PATTERN : Nat := 0x4503
def OV13855_TEST_PATTERN_ENABLE : Nat := 0x80
def OV13855_TEST_PATTERN_MASK : Nat := 0xfc

/-- Linux errno values used by the driver (returned negated). -/
def EIO : Int := 5
def EINVAL : Int := 22
def EACCES : Int := 13

/-! ### C machine-integer model -/

/-- Interpret a natural number as a 32-bit two's-complement `int`
(the value an out-of-range `unsigned`-to-`int` conversion yields on the
kernel's platforms). -/
def i32ofBits (n : Nat) : Int :=
  if n % 2 ^ 32 < 2 ^ 31 then (n % 2 ^ 32 : Int) else (n % 2 ^ 32 : Int) - 2 ^ 32

/-- Wrap an integer into the 32-bit signed range (two's-complement `int`
overflow behaviour). -/
def i32wrap (z : Int) : Int := (z + 2 ^ 31) % 2 ^ 32 - 2 ^ 31

/-- `u32` subtraction `a - b` (wraps modulo `2 ^ 32`). -/
def u32sub (a b : Nat) : Nat := (a % 2 ^ 32 + (2 ^ 32 - b % 2 ^ 32)) % 2 ^ 32

/-- The kernel `abs()` macro applied to a `u32` expression: the operand is
converted to `int` first, then negated if negative (negation itself wraps). -/
def c_abs_u32 (n : Nat) : Int :=
  if i32ofBits n < 0 then i32wrap (-(i32ofBits n)) else i32ofBits n

/-- Truncate an `Int` to a `u32` bit pattern (cast of `s32` to `u32`). -/
def u32ofInt (z : Int) : Nat := (z % 2 ^ 32).toNat

/-! ### Mode catalog and link-frequency configs (ov13855.c lines 106–1042) -/

/-- `struct ov13855_mode` (register tables are static data, held separately). -/
structure Ov13855Mode where
  width : Nat
  height : Nat
  vts : Nat
  link_freq_index : Nat
deriving DecidableEq

/-- `struct ov13855_link_freq_config` without its PLL register list
(both PLL lists in the source are empty). -/
structure Ov13855LinkFreqConfig where
  pixel_rate : Nat
  pixels_per_line : Nat
deriving DecidableEq

/-- `link_freq_configs` (ov13855.c lines 978–996). -/
def link_freq_configs : List Ov13855LinkFreqConfig :=
  [⟨4224 * 3136 * 30, OV13855_PPL_1080MHZ⟩,
   ⟨2112 * 1568 * 60, OV13855_PPL_540MHZ⟩]

/-- `supported_modes` (ov13855.c lines 1011–1042). -/
def supported_modes : List Ov13855Mode :=
  [⟨4224, 3136, OV13855_VTS_30FPS, 0⟩,
   ⟨2112, 1568, OV13855_VTS_60FPS, 1⟩,
   ⟨1056, 784, OV13855_VTS_30FPS, 1⟩]

/-- The mode at a catalog index (total, for stating theorems). -/
def modeAt (i : Nat) : Ov13855Mode := supported_modes.getD i ⟨0, 0, 0, 0⟩

/-- `ov13855_get_resolution_dist` (lines 1398–1404): both subtractions are
`u32`, the kernel `abs()` converts each to `int`, and the sum is stored in an
`int`. -/
def ov13855_get_resolution_dist (mode : Ov13855Mode) (w h : Nat) : Int :=
  i32wrap (c_abs_u32 (u32sub mode.width w) + c_abs_u32 (u32sub mode.height h))

/-- The mathematical `|Δw| + |Δh|` distance the spec describes. -/
def resolutionDist (mode : Ov13855Mode) (w h : Nat) : Int :=
  |(mode.width : Int) - w| + |(mode.height : Int) - h|

/-- Loop body of `ov13855_find_best_fit` (lines 1409–1426): tracks the index
and distance of the best mode so far, starting from distance `-1`. -/
def findBestFitAux (w h : Nat) :
    List Ov13855Mode → Nat → Int → Nat → Nat
  | [], _, _, best => best
  | m :: rest, i, bestDist, best =>
    let dist := ov13855_get_resolution_dist m w h
    if bestDist = -1 ∨ dist < bestDist then
      findBestFitAux w h rest (i + 1) dist i
    else
      findBestFitAux w h rest (i + 1) bestDist best

/-- `ov13855_find_best_fit`: returns the index into `supported_modes` of the
chosen mode. -/
def ov13855_find_best_fit (w h : Nat) : Nat :=
  findBestFitAux w h supported_modes 0 (-1) 0

/-! ### Register transport (ov13855.c lines 1085–1144) -/

/-- The four bytes of a value in big-endian order (`cpu_to_be32`). -/
def be32_bytes (v : Nat) : List Nat :=
  [v / 2 ^ 24 % 2 ^ 8, v / 2 ^ 16 % 2 ^ 8, v / 2 ^ 8 % 2 ^ 8, v % 2 ^ 8]

/-- The buffer `ov13855_write_reg` sends: two address bytes big-endian,
then the bytes `val_p[4-len .. 3]` of the big-endian packed value. -/
def ov13855_write_reg_buf (reg len val : Nat) : List Nat :=
  [reg / 2 ^ 8 % 2 ^ 8, reg % 2 ^ 8] ++ (be32_bytes (val % 2 ^ 32)).drop (4 - len)

/-- `ov13855_write_reg` (lines 1120–1144). `send` models `i2c_master_send`,
returning the number of bytes the bus transferred for the given buffer;
a transfer count different from `len + 2` yields `-EIO`, a width above 4
yields `-EINVAL` before any bus activity. -/
def ov13855_write_reg (send : List Nat → Int) (reg len val : Nat) : Int :=
  if len > 4 then -EINVAL
  else if send (ov13855_write_reg_buf reg len val) ≠ (len : Int) + 2 then - EIO
  else 0

/-- `ov13855_read_reg` (lines 1085–1117). `ok` models `i2c_transfer`
completing with `ARRAY_SIZE(msgs)` messages, `bytes` the data clocked in for
the read message.  The bytes land in the high-address end of a zero-initialised
4-byte big-endian accumulator, which `be32_to_cpu` then assembles.
Returns `(ret, *val)`. -/
def ov13855_read_reg (ok : Bool) (bytes : List Nat) (reg len : Nat) :
    Int × Nat :=
  if len > 4 then (-EINVAL, 0)
  else if !ok then (- EIO, 0)
  else
    let data := List.replicate (4 - len) 0 ++
      ((bytes.map (· % 2 ^ 8)).take len ++ List.replicate (len - bytes.length) 0)
    (0, data.foldl (fun acc b => acc * 2 ^ 8 + b) 0)

/-! ### Bus transaction traces

For the stateful parts of the driver the bus is modelled by an oracle that
decides, per transaction, whether the transfer completes and what data a read
returns.  Completed transactions are logged in a trace. -/

structure BusOracle where
  /-- whether the n-th bus transaction completes with the right byte count -/
  ok : Nat → Bool
  /-- the data the device supplies if the n-th transaction is a read -/
  rval : Nat → Nat

structure Txn where
  is_read : Bool
  reg : Nat
  len : Nat
  val : Nat
deriving DecidableEq

structure BusState where
  n : Nat
  trace : List Txn
deriving DecidableEq

/-- `ov13855_write_reg` acting on the transaction log: width above 4 is
rejected before any bus activity, a failed transfer yields `-EIO`. -/
def reg_write (o : BusOracle) (s : BusState) (reg len val : Nat) :
    BusState × Int :=
  if len > 4 then (s, -EINVAL)
  else if o.ok s.n then
    ({ n := s.n + 1, trace := s.trace ++ [⟨false, reg, len, val % 2 ^ 32⟩] }, 0)
  else ({ s with n := s.n + 1 }, - EIO)

/-- `ov13855_read_reg` acting on the transaction log; returns `(s', ret, val)`. -/
def reg_read (o : BusOracle) (s : BusState) (reg len : Nat) :
    BusState × Int × Nat :=
  if len > 4 then (s, -EINVAL, 0)
  else if o.ok s.n then
    ({ n := s.n + 1, trace := s.trace ++ [⟨true, reg, len, 0⟩] }, 0,
     o.rval s.n % 2 ^ (8 * len))
  else ({ s with n := s.n + 1 }, - EIO, 0)

/-- `ov13855_write_regs` (lines 1147–1168): writes each (address, value) pair
with width 1, stopping at the first error. -/
def ov13855_write_regs (o : BusOracle) :
    BusState → List (Nat × Nat) → BusState × Int
  | s, [] => (s, 0)
  | s, (a, v) :: rest =>
    let (s', r) := reg_write o s a 1 v
    if r ≠ 0 then (s', r) else ov13855_write_regs o s' rest

/-! ### Test pattern control (ov13855.c lines 1222–1248) -/

/-- The register value `ov13855_enable_test_pattern` computes from the value
read back (`prior`) and the requested pattern.  The source overwrites the
requested pattern with the hardcoded constant 1 (`pattern = 1;`, line 1227)
before the branch, exactly as reproduced here. -/
def ov13855_test_pattern_regval (prior pattern : Nat) : Nat :=
  let pattern := 1
  if pattern ≠ 0 then
    (prior &&& OV13855_TEST_PATTERN_MASK) |||
      ((pattern - 1) ||| OV13855_TEST_PATTERN_ENABLE)
  else
    prior &&& (2 ^ 32 - 1 - OV13855_TEST_PATTERN_ENABLE)

/-- `ov13855_enable_test_pattern`: read-modify-write of the test-pattern
register. -/
def ov13855_enable_test_pattern (o : BusOracle) (s : BusState) (pattern : Nat) :
    BusState × Int :=
  let (s1, r, v) := reg_read o s OV13855_REG_TEST_PATTERN OV13855_REG_VALUE_08BIT
  if r ≠ 0 then (s1, r)
  else reg_write o s1 OV13855_REG_TEST_PATTERN OV13855_REG_VALUE_08BIT
    (ov13855_test_pattern_regval v pattern)

/-! ### Control graph (ov13855.c lines 1250–1317 and 1790–1872) -/

/-- A V4L2 integer control: bounds, step, default and current value. -/
structure CtrlRange where
  minimum : Int
  maximum : Int
  step : Int
  default_value : Int
  val : Int
deriving DecidableEq

/-- Modelled from the spec: `__v4l2_ctrl_modify_range` lives in the V4L2
control framework (drivers/media/v4l2-core/v4l2-ctrls.c, part of this kernel
tree but not under src/).  Per the spec (§4.3), a range update installs the
new bounds and default and clamps the control's current value into the new
range. -/
def v4l2_ctrl_modify_range (c : CtrlRange) (mn mx st df : Int) : CtrlRange :=
  { minimum := mn, maximum := mx, step := st, default_value := df,
    val := max mn (min c.val mx) }

/-- Modelled from the spec: `__v4l2_ctrl_s_ctrl` (V4L2 framework, not under
src/) installs a new value clamped into the control's range before invoking
the driver's `s_ctrl` operation. -/
def v4l2_ctrl_s_ctrl_val (c : CtrlRange) (v : Int) : CtrlRange :=
  { c with val := max c.minimum (min v c.maximum) }

/-- The `V4L2_CID_VBLANK` branch of `ov13855_set_ctrl`'s propagation switch
(lines 1259–1267): the exposure maximum becomes
`cur_mode->height + ctrl->val - 8` and is installed with
`__v4l2_ctrl_modify_range` (new default = new maximum). -/
def ov13855_set_ctrl_vblank_propagate (cur_mode : Ov13855Mode)
    (exposure : CtrlRange) (vblank_val : Int) : CtrlRange :=
  v4l2_ctrl_modify_range exposure exposure.minimum
    ((cur_mode.height : Int) + vblank_val - 8) exposure.step
    ((cur_mode.height : Int) + vblank_val - 8)

/-- The control ids `ov13855_set_ctrl` distinguishes; `other` covers the ids
that reach the default branch (link frequency, pixel rate, hblank, and the
gains whose cases are compiled out). -/
inductive CtrlId where
  | exposure
  | vblank
  | test_pattern
  | other
deriving DecidableEq

/-- `ov13855_set_ctrl` (lines 1250–1313): the propagation switch runs
unconditionally; hardware writes are issued only when the device is powered
(`pm_runtime_get_if_in_use` positive, modelled by `powered`).
Returns `(bus', exposure', ret)`. -/
def ov13855_set_ctrl (o : BusOracle) (powered : Bool) (m : Ov13855Mode)
    (e : CtrlRange) (id : CtrlId) (v : Int) (s : BusState) :
    BusState × CtrlRange × Int :=
  match id with
  | .exposure =>
    if !powered then (s, e, 0)
    else
      let (s', r) := reg_write o s OV13855_REG_EXPOSURE OV13855_REG_VALUE_24BIT
        (u32ofInt (v * 2 ^ 4))
      (s', e, r)
  | .vblank =>
    let e' := ov13855_set_ctrl_vblank_propagate m e v
    if !powered then (s, e', 0)
    else
      let (s', r) := reg_write o s OV13855_REG_VTS OV13855_REG_VALUE_16BIT
        (u32ofInt ((m.height : Int) + v))
      (s', e', r)
  | .test_pattern =>
    if !powered then (s, e, 0)
    else
      let (s', r) := ov13855_enable_test_pattern o s (u32ofInt v)
      (s', e, r)
  | .other => (s, e, 0)

/-- The driver's control state: current mode plus the controls
`ov13855_set_pad_format` touches, and the read-only flag
`ov13855_init_controls` puts on hblank. -/
structure DriverCtrls where
  cur_mode : Ov13855Mode
  vblank : CtrlRange
  hblank : CtrlRange
  exposure : CtrlRange
  test_pattern : Int
  hblank_read_only : Bool
deriving DecidableEq

/-- The control state `ov13855_init_controls` builds (lines 1790–1872) with
the initial `cur_mode = &supported_modes[0]` set by probe (line 1962):
vblank in `[VBLANK_MIN, VTS_MAX - height]` defaulting to `vts - height`,
hblank pinned to `PPL_1080MHZ - width` and flagged read-only, exposure in
`[EXPOSURE_MIN, vts - 8]`, test pattern defaulting to 0. -/
def ov13855_init_ctrls : DriverCtrls :=
  { cur_mode := modeAt 0
    vblank := { minimum := OV13855_VBLANK_MIN
                maximum := (OV13855_VTS_MAX : Int) - (modeAt 0).height
                step := 1
                default_value := ((modeAt 0).vts : Int) - (modeAt 0).height
                val := ((modeAt 0).vts : Int) - (modeAt 0).height }
    hblank := { minimum := (OV13855_PPL_1080MHZ : Int) - (modeAt 0).width
                maximum := (OV13855_PPL_1080MHZ : Int) - (modeAt 0).width
                step := 1
                default_value := (OV13855_PPL_1080MHZ : Int) - (modeAt 0).width
                val := (OV13855_PPL_1080MHZ : Int) - (modeAt 0).width }
    exposure := { minimum := OV13855_EXPOSURE_MIN
                  maximum := ((modeAt 0).vts : Int) - 8
                  step := OV13855_EXPOSURE_STEP
                  default_value := OV13855_EXPOSURE_DEFAULT
                  val := OV13855_EXPOSURE_DEFAULT }
    test_pattern := 0
    hblank_read_only := true }

/-- `ov13855_set_pad_format` (lines 1428–1473), non-TRY branch: install the
best-fit mode, recompute vblank's range and default, set vblank to the new
default through `__v4l2_ctrl_s_ctrl` (which triggers the exposure-maximum
propagation in `ov13855_set_ctrl`), and pin hblank to
`pixels_per_line - width`. -/
def ov13855_set_pad_format_active (d : DriverCtrls) (w h : Nat) : DriverCtrls :=
  let mode := modeAt (ov13855_find_best_fit w h)
  let vblank_def : Int := (mode.vts : Int) - mode.height
  let vblank1 := v4l2_ctrl_modify_range d.vblank OV13855_VBLANK_MIN
    ((OV13855_VTS_MAX : Int) - mode.height) 1 vblank_def
  let vblank2 := v4l2_ctrl_s_ctrl_val vblank1 vblank_def
  let exposure' := ov13855_set_ctrl_vblank_propagate mode d.exposure vblank2.val
  let h_blank : Int :=
    ((link_freq_configs.getD mode.link_freq_index ⟨0, 0⟩).pixels_per_line : Int)
      - mode.width
  let hblank' := v4l2_ctrl_modify_range d.hblank h_blank h_blank 1 h_blank
  { d with cur_mode := mode, vblank := vblank2, hblank := hblank',
           exposure := exposure' }

/-- Modelled from the spec: a userspace write to a control carrying
`V4L2_CTRL_FLAG_READ_ONLY` is rejected by the V4L2 control framework
(v4l2-ctrls.c, part of this kernel tree but not under src/) without touching
the control. -/
def v4l2_user_set_hblank (d : DriverCtrls) (v : Int) : DriverCtrls × Int :=
  if d.hblank_read_only then (d, -EACCES)
  else ({ d with hblank := v4l2_ctrl_s_ctrl_val d.hblank v }, 0)

/-! ### Streaming state machine (ov13855.c lines 1483–1595) -/

/-- Modelled from the spec: `__v4l2_ctrl_handler_setup` (V4L2 framework, not
under src/) replays every control's current value through the driver's
`s_ctrl` in registration order, stopping at the first error.  For this driver
only vblank, exposure and the test pattern reach hardware writes; link
frequency, pixel rate, hblank and analogue gain fall into `ov13855_set_ctrl`'s
default branch.  Returns `(bus', ctrls', ret)`. -/
def ov13855_ctrl_handler_setup (o : BusOracle) (d : DriverCtrls)
    (s : BusState) : BusState × DriverCtrls × Int :=
  let (s1, e1, r1) := ov13855_set_ctrl o true d.cur_mode d.exposure .vblank
    d.vblank.val s
  if r1 ≠ 0 then (s1, { d with exposure := e1 }, r1)
  else
    let (s2, e2, r2) := ov13855_set_ctrl o true d.cur_mode e1 .exposure
      e1.val s1
    if r2 ≠ 0 then (s2, { d with exposure := e2 }, r2)
    else
      let (s3, e3, r3) := ov13855_set_ctrl o true d.cur_mode e2 .test_pattern
        d.test_pattern s2
      (s3, { d with exposure := e3 }, r3)

/-- `ov13855_start_streaming` (lines 1483–1542): software reset, init
sequence, current mode's register list, control replay, then the
streaming-enable write; the first error aborts the sequence.  The static
register tables are pure data and passed in as `init_regs`/`mode_regs`. -/
def ov13855_start_streaming (o : BusOracle)
    (init_regs mode_regs : List (Nat × Nat)) (d : DriverCtrls) (s : BusState) :
    BusState × DriverCtrls × Int :=
  let (s1, r1) := reg_write o s OV13855_REG_SOFTWARE_RST OV13855_REG_VALUE_08BIT
    OV13855_SOFTWARE_RST
  if r1 ≠ 0 then (s1, d, r1)
  else
    let (s2, r2) := ov13855_write_regs o s1 init_regs
    if r2 ≠ 0 then (s2, d, r2)
    else
      let (s3, r3) := ov13855_write_regs o s2 mode_regs
      if r3 ≠ 0 then (s3, d, r3)
      else
        let (s4, d4, r4) := ov13855_ctrl_handler_setup o d s3
        if r4 ≠ 0 then (s4, d4, r4)
        else
          let (s5, r5) := reg_write o s4 OV13855_REG_MODE_SELECT
            OV13855_REG_VALUE_08BIT OV13855_MODE_STREAMING
          (s5, d4, r5)

/-- `ov13855_stop_streaming` (lines 1545–1549): single standby write. -/
def ov13855_stop_streaming (o : BusOracle) (s : BusState) : BusState × Int :=
  reg_write o s OV13855_REG_MODE_SELECT OV13855_REG_VALUE_08BIT
    OV13855_MODE_STANDBY

structure StreamState where
  streaming : Bool
  power_count : Int
  ctrls : DriverCtrls
  bus : BusState
deriving DecidableEq

/-- `ov13855_set_stream` (lines 1551–1595).  `pm_get` is the return value of
`pm_runtime_get_sync` (runtime-PM collaborator, kernel code outside src/,
modelled from the spec): on failure (negative) the matching
`pm_runtime_put_noidle` drops the reference `get_sync` took, so the usage
count is net unchanged; on success the count rises by one, and the
error path `err_rpm_put` (`pm_runtime_put`) drops it again. -/
def ov13855_set_stream (o : BusOracle) (pm_get : Int)
    (init_regs mode_regs : List (Nat × Nat)) (st : StreamState)
    (enable : Bool) : StreamState × Int :=
  if st.streaming = enable then (st, 0)
  else if enable then
    if pm_get < 0 then (st, pm_get)
    else
      let st1 : StreamState := { st with power_count := st.power_count + 1 }
      let (bus', d', r) := ov13855_start_streaming o init_regs mode_regs
        st1.ctrls st1.bus
      if r ≠ 0 then
        ({ st1 with bus := bus', ctrls := d',
                    power_count := st1.power_count - 1 }, r)
      else
        ({ st1 with bus := bus', ctrls := d', streaming := true }, 0)
  else
    let (bus', _) := ov13855_stop_streaming o st.bus
    ({ st with bus := bus', streaming := false,
               power_count := st.power_count - 1 }, 0)

/-! ### Power reference counting (ov13855.c lines 1651–1740) -/

structure PowerState where
  power_count : Int
  /-- the `on` argument of each `ov13855_set_power` invocation, in order -/
  set_power_calls : List Bool
deriving DecidableEq

/-- `ov13855_s_power` (lines 1707–1740): the power sequencer
`ov13855_set_power` runs only when `power_count == !on`, i.e. at the 0-to-1
and 1-to-0 boundaries; afterwards the count moves by ±1, except that a failed
`set_power` jumps to `out` leaving the count unchanged.  `hw_ok` is whether
`ov13855_set_power(.., true)` succeeds (its power-down path always returns 0). -/
def ov13855_s_power (hw_ok : Bool) (st : PowerState) («on» : Bool) :
    PowerState × Int :=
  if st.power_count = (if «on» then 0 else 1) then
    if «on» && !hw_ok then
      ({ st with set_power_calls := st.set_power_calls ++ [«on»] }, - EIO)
    else
      ({ power_count := st.power_count + (if «on» then 1 else -1),
         set_power_calls := st.set_power_calls ++ [«on»] }, 0)
  else
    ({ st with power_count := st.power_count + (if «on» then 1 else -1) }, 0)

/-! ## Theorems -/

/-! ### Best-fit mode selection (claim C1) -/

theorem resolutionDist_nonneg (m : Ov13855Mode) (w h : Nat) :
    0 ≤ resolutionDist m w h :=
  add_nonneg (abs_nonneg _) (abs_nonneg _)

theorem i32wrap_eq_self {z : Int} (h1 : -2 ^ 31 ≤ z) (h2 : z < 2 ^ 31) :
    i32wrap z = z := by
  unfold i32wrap
  rw [Int.emod_eq_of_lt (by omega) (by omega)]
  omega

/-- Below `2 ^ 30` the wrapping `u32`/`int` distance computation agrees with
the exact absolute difference. -/
theorem c_abs_u32_sub (a b : Nat) (ha : a < 2 ^ 30) (hb : b < 2 ^ 30) :
    c_abs_u32 (u32sub a b) = |(a : Int) - b| := by
  have habs : |(a : Int) - b| =
      if b ≤ a then ((a : Int) - b) else ((b : Int) - a) := by
    split_ifs with hba
    · exact abs_of_nonneg (by omega)
    · rw [abs_of_neg (by omega)]; ring
  rw [habs]
  unfold c_abs_u32 u32sub i32ofBits i32wrap
  split_ifs <;> omega

theorem dist_eq_true (m : Ov13855Mode) (w h : Nat)
    (h1 : m.width < 2 ^ 30) (h2 : m.height < 2 ^ 30)
    (hw : w < 2 ^ 30) (hh : h < 2 ^ 30) :
    ov13855_get_resolution_dist m w h = resolutionDist m w h := by
  unfold ov13855_get_resolution_dist resolutionDist
  rw [c_abs_u32_sub _ _ h1 hw, c_abs_u32_sub _ _ h2 hh]
  apply i32wrap_eq_self
  · have := abs_nonneg ((m.width : Int) - w)
    have := abs_nonneg ((m.height : Int) - h)
    linarith
  · have hb1 : |(m.width : Int) - w| < 2 ^ 30 := by
      rw [abs_sub_lt_iff]; omega
    have hb2 : |(m.height : Int) - h| < 2 ^ 30 := by
      rw [abs_sub_lt_iff]; omega
    linarith

/-- Claim C1, amended: for requested sizes below `2 ^ 30` (where the 32-bit
distance arithmetic cannot wrap), `ov13855_find_best_fit` returns the catalog
index minimizing `|Δw| + |Δh|`, ties resolving to the lowest index; and the
request (2000, 1500) yields the 2112x1568 mode. -/
theorem ov13855_find_best_fit_minimizes (w h : Nat)
    (hw : w < 2 ^ 30) (hh : h < 2 ^ 30) :
    ov13855_find_best_fit w h < supported_modes.length ∧
    (∀ j, j < supported_modes.length →
      resolutionDist (modeAt (ov13855_find_best_fit w h)) w h ≤
        resolutionDist (modeAt j) w h) ∧
    (∀ j, j < supported_modes.length →
      resolutionDist (modeAt j) w h =
        resolutionDist (modeAt (ov13855_find_best_fit w h)) w h →
      ov13855_find_best_fit w h ≤ j) ∧
    ov13855_find_best_fit 2000 1500 = 1 ∧
    modeAt 1 = ⟨2112, 1568, OV13855_VTS_60FPS, 1⟩ := by
  have e0 : ov13855_get_resolution_dist (modeAt 0) w h =
      resolutionDist (modeAt 0) w h :=
    dist_eq_true _ w h (by decide) (by decide) hw hh
  have e1 : ov13855_get_resolution_dist (modeAt 1) w h =
      resolutionDist (modeAt 1) w h :=
    dist_eq_true _ w h (by decide) (by decide) hw hh
  have e2 : ov13855_get_resolution_dist (modeAt 2) w h =
      resolutionDist (modeAt 2) w h :=
    dist_eq_true _ w h (by decide) (by decide) hw hh
  have hd0 : 0 ≤ ov13855_get_resolution_dist (modeAt 0) w h := by
    rw [e0]; exact resolutionDist_nonneg _ _ _
  have hd1 : 0 ≤ ov13855_get_resolution_dist (modeAt 1) w h := by
    rw [e1]; exact resolutionDist_nonneg _ _ _
  have key : ov13855_find_best_fit w h =
      if ov13855_get_resolution_dist (modeAt 1) w h <
          ov13855_get_resolution_dist (modeAt 0) w h then
        if ov13855_get_resolution_dist (modeAt 2) w h <
            ov13855_get_resolution_dist (modeAt 1) w h then 2 else 1
      else
        if ov13855_get_resolution_dist (modeAt 2) w h <
            ov13855_get_resolution_dist (modeAt 0) w h then 2 else 0 := by
    have h0f : (ov13855_get_resolution_dist (modeAt 0) w h = -1) = False :=
      eq_false (fun hc => by rw [hc] at hd0; norm_num at hd0)
    have h1f : (ov13855_get_resolution_dist (modeAt 1) w h = -1) = False :=
      eq_false (fun hc => by rw [hc] at hd1; norm_num at hd1)
    show findBestFitAux w h [modeAt 0, modeAt 1, modeAt 2] 0 (-1) 0 = _
    simp only [findBestFitAux, eq_self_iff_true, true_or, if_true]
    simp only [h0f, h1f, false_or]
  rw [e0, e1, e2] at key
  rw [key]
  have hlen : supported_modes.length = 3 := by decide
  split_ifs with h01 h12 h02 <;>
    refine ⟨by omega, ?_, ?_, by decide, by decide⟩ <;>
    intro j hj <;>
    (rw [hlen] at hj;
     have hj3 : j = 0 ∨ j = 1 ∨ j = 2 := by omega) <;>
    rcases hj3 with rfl | rfl | rfl
  · linarith
  · linarith
  · exact le_refl _
  · intro heq; linarith
  · intro heq; linarith
  · intro heq; omega
  · linarith
  · exact le_refl _
  · linarith
  · intro heq; linarith
  · intro heq; omega
  · intro heq; omega
  · linarith
  · linarith
  · exact le_refl _
  · intro heq; linarith
  · intro heq; linarith
  · intro heq; omega
  · exact le_refl _
  · linarith
  · linarith
  · intro heq; omega
  · intro heq; omega
  · intro heq; omega

theorem ov13855_find_best_fit_minimizes_witness :
    (2000 < 2 ^ 30 ∧ 1500 < 2 ^ 30) ∧ ov13855_find_best_fit 2000 1500 = 1 :=
  ⟨⟨by norm_num, by norm_num⟩,
   (ov13855_find_best_fit_minimizes 2000 1500 (by norm_num)
      (by norm_num)).2.2.2.1⟩

/-- Claim C1, counterexample to the universally quantified statement: for the
request (2147487648, 3136) the `u32` subtraction inside
`ov13855_get_resolution_dist` wraps, and the function returns catalog index 2
(1056x784) although index 0 (4224x3136) has a strictly smaller
`|Δw| + |Δh|` distance. -/
theorem ov13855_find_best_fit_wrap_counterexample :
    ov13855_find_best_fit 2147487648 3136 = 2 ∧
    resolutionDist (modeAt 0) 2147487648 3136 <
      resolutionDist (modeAt 2) 2147487648 3136 := by
  constructor
  · decide
  · decide

/-! ### Vblank → exposure propagation (claim C2) -/

/-- Claim C2: when the vblank control changes to `v`, `ov13855_set_ctrl`
recomputes the exposure maximum as `cur_mode->height + v - 8` (margin 8), and
the exposure value is clamped into the new range, never left above the new
maximum.  `v` at least `OV13855_VBLANK_MIN` is what the vblank control's range
admits; the exposure minimum in this driver is `OV13855_EXPOSURE_MIN = 4 ≤ 832`. -/
theorem ov13855_vblank_propagates_exposure_max (m : Ov13855Mode)
    (e : CtrlRange) (v : Int) (hm : m ∈ supported_modes)
    (hv : ((OV13855_VBLANK_MIN : Nat) : Int) ≤ v) (he : e.minimum ≤ 832) :
    (ov13855_set_ctrl_vblank_propagate m e v).maximum =
      (m.height : Int) + v - 8 ∧
    (ov13855_set_ctrl_vblank_propagate m e v).minimum = e.minimum ∧
    (ov13855_set_ctrl_vblank_propagate m e v).val ≤
      (ov13855_set_ctrl_vblank_propagate m e v).maximum ∧
    e.minimum ≤ (ov13855_set_ctrl_vblank_propagate m e v).val ∧
    ((m.height : Int) + v - 8 < e.val →
      (ov13855_set_ctrl_vblank_propagate m e v).val =
        (m.height : Int) + v - 8) ∧
    (e.minimum ≤ e.val → e.val ≤ (m.height : Int) + v - 8 →
      (ov13855_set_ctrl_vblank_propagate m e v).val = e.val) := by
  have hh : (784 : Int) ≤ (m.height : Int) := by
    fin_cases hm <;> decide
  have hv' : (56 : Int) ≤ v := by
    have h56 : ((OV13855_VBLANK_MIN : Nat) : Int) = 56 := by decide
    omega
  refine ⟨rfl, rfl, ?_, ?_, ?_, ?_⟩ <;>
    simp only [ov13855_set_ctrl_vblank_propagate, v4l2_ctrl_modify_range] <;>
    intros <;> rw [max_def, min_def] <;> split_ifs <;> omega

theorem ov13855_vblank_propagates_exposure_max_witness :
    (ov13855_set_ctrl_vblank_propagate ⟨2112, 1568, OV13855_VTS_60FPS, 1⟩
      ⟨4, 1600, 1, 1600, 1600⟩ 56).maximum = 1616 := by
  have h := ov13855_vblank_propagates_exposure_max
    ⟨2112, 1568, OV13855_VTS_60FPS, 1⟩ ⟨4, 1600, 1, 1600, 1600⟩ 56
    (by decide) (by decide) (by decide)
  rw [h.1]; decide

/-! ### Mode change: range recomputation (claim C3) -/

/-- Claim C3, counterexample to "exposure's maximum becomes mode.vts - margin":
switching to the 2112x1568 mode (vts 0x648 = 1608) leaves the exposure maximum
at 1616, not `vts - 8 = 1600`, because the new vblank default
`vts - height = 40` lies below `OV13855_VBLANK_MIN = 56` and the value the
propagation sees is the clamped 56. -/
theorem ov13855_set_pad_format_exposure_max_counterexample :
    (ov13855_set_pad_format_active ov13855_init_ctrls 2112 1568).cur_mode =
      modeAt 1 ∧
    (ov13855_set_pad_format_active ov13855_init_ctrls 2112 1568).exposure.maximum
      = 1616 ∧
    ((modeAt 1).vts : Int) - 8 = 1600 := by
  refine ⟨by decide, by decide, by decide⟩

/-- Claim C3, amended: a non-TRY set-format installs the best-fit mode and
recomputes vblank's default (`vts - height`) and range
(`[VBLANK_MIN, VTS_MAX - height]`), pins hblank to
`pixels_per_line(freq_idx) - width` (minimum = maximum = default) while its
read-only flag persists and external writes stay rejected, and sets the
exposure maximum to `height + clamped-vblank-default - 8`, which equals
`vts - 8` exactly when `VBLANK_MIN ≤ vts - height`; for the 2112x1568 request
hblank becomes `2244 - 2112`. -/
theorem ov13855_set_pad_format_updates_ranges (d : DriverCtrls) (w h : Nat)
    (v : Int) :
    let m := modeAt (ov13855_find_best_fit w h)
    let d' := ov13855_set_pad_format_active d w h
    d'.cur_mode = m ∧
    d'.vblank.default_value = (m.vts : Int) - m.height ∧
    d'.vblank.minimum = ((OV13855_VBLANK_MIN : Nat) : Int) ∧
    d'.vblank.maximum = ((OV13855_VTS_MAX : Nat) : Int) - m.height ∧
    d'.vblank.val = max ((OV13855_VBLANK_MIN : Nat) : Int)
      (min ((m.vts : Int) - m.height)
        (((OV13855_VTS_MAX : Nat) : Int) - m.height)) ∧
    d'.hblank.minimum =
      ((link_freq_configs.getD m.link_freq_index ⟨0, 0⟩).pixels_per_line : Int)
        - m.width ∧
    d'.hblank.maximum = d'.hblank.minimum ∧
    d'.hblank.default_value = d'.hblank.minimum ∧
    d'.exposure.maximum = (m.height : Int) + d'.vblank.val - 8 ∧
    (((OV13855_VBLANK_MIN : Nat) : Int) ≤ (m.vts : Int) - m.height →
      (m.vts : Int) ≤ ((OV13855_VTS_MAX : Nat) : Int) →
      d'.exposure.maximum = (m.vts : Int) - 8) ∧
    d'.hblank_read_only = d.hblank_read_only ∧
    (d'.hblank_read_only = true →
      v4l2_user_set_hblank d' v = (d', -EACCES)) ∧
    (ov13855_set_pad_format_active d 2112 1568).hblank.maximum =
      2244 - 2112 := by
  refine ⟨rfl, rfl, rfl, rfl, rfl, rfl, rfl, rfl, rfl, ?_, rfl, ?_, ?_⟩
  · intro h1 h2
    simp only [ov13855_set_pad_format_active, v4l2_ctrl_modify_range,
      v4l2_ctrl_s_ctrl_val, ov13855_set_ctrl_vblank_propagate]
    rw [max_def, min_def]
    split_ifs <;> omega
  · intro hro
    simp only [v4l2_user_set_hblank, hro, if_true]
  · simp only [ov13855_set_pad_format_active, v4l2_ctrl_modify_range]
    decide

theorem ov13855_set_pad_format_updates_ranges_witness :
    (ov13855_set_pad_format_active ov13855_init_ctrls 4224 3136).exposure.maximum
      = ((modeAt (ov13855_find_best_fit 4224 3136)).vts : Int) - 8 ∧
    v4l2_user_set_hblank
        (ov13855_set_pad_format_active ov13855_init_ctrls 4224 3136) 7 =
      (ov13855_set_pad_format_active ov13855_init_ctrls 4224 3136, -EACCES) := by
  obtain ⟨-, -, -, -, -, -, -, -, -, hc, hro, hus, -⟩ :=
    ov13855_set_pad_format_updates_ranges ov13855_init_ctrls 4224 3136 7
  exact ⟨hc (by decide) (by decide), hus (by rw [hro]; rfl)⟩

/-! ### Stream start failure unwinding (claim C4) -/

/-- Claim C4: starting from Standby, if `ov13855_set_stream(.., true)` returns
an error — the power-up failing, or any register transaction of
`ov13855_start_streaming` (software reset, init sequence, mode list, control
replay, streaming enable) failing — then the streaming flag stays false and
the power reference count is back at its initial value (the unwind paths
`pm_runtime_put_noidle`/`err_rpm_put` ran); a power-up failure propagates the
power error itself. -/
theorem ov13855_set_stream_failure_unwinds (o : BusOracle) (pm_get : Int)
    (init_regs mode_regs : List (Nat × Nat)) (st : StreamState)
    (hst : st.streaming = false) :
    (ov13855_set_stream o pm_get init_regs mode_regs st true).2 ≠ 0 →
    (ov13855_set_stream o pm_get init_regs mode_regs st true).1.streaming
        = false ∧
    (ov13855_set_stream o pm_get init_regs mode_regs st true).1.power_count
        = st.power_count ∧
    (pm_get < 0 →
      (ov13855_set_stream o pm_get init_regs mode_regs st true).2 = pm_get) := by
  have hne : ¬ (st.streaming = true) := by rw [hst]; simp
  simp only [ov13855_set_stream, if_neg hne]
  split_ifs with ht hpm hr0
  · exact fun _ => ⟨hst, rfl, fun _ => rfl⟩
  · intro _
    exact ⟨hst, by dsimp only; omega, fun hneg => absurd hneg hpm⟩
  · exact fun hc => absurd rfl hc
  · exact absurd trivial ht
  · exact absurd trivial ht
  · exact absurd trivial ht

theorem ov13855_set_stream_failure_unwinds_witness :
    (ov13855_set_stream ⟨fun _ => false, fun _ => 0⟩ 0 [] []
      ⟨false, 0, ov13855_init_ctrls, ⟨0, []⟩⟩ true).1.streaming = false ∧
    (ov13855_set_stream ⟨fun _ => false, fun _ => 0⟩ 0 [] []
      ⟨false, 0, ov13855_init_ctrls, ⟨0, []⟩⟩ true).1.power_count = 0 := by
  have h := ov13855_set_stream_failure_unwinds ⟨fun _ => false, fun _ => 0⟩ 0
    [] [] ⟨false, 0, ov13855_init_ctrls, ⟨0, []⟩⟩ rfl (by decide)
  exact ⟨h.1, h.2.1⟩

/-! ### Stream toggle idempotence (claim C5) -/

/-- Claim C5: `set_stream(true)` when already streaming returns success with
the state (and hence the bus transaction trace) unchanged, and symmetrically
`set_stream(false)` when already in standby. -/
theorem ov13855_set_stream_idempotent (o : BusOracle) (pm_get : Int)
    (init_regs mode_regs : List (Nat × Nat)) (st : StreamState) :
    (st.streaming = true →
      ov13855_set_stream o pm_get init_regs mode_regs st true = (st, 0)) ∧
    (st.streaming = false →
      ov13855_set_stream o pm_get init_regs mode_regs st false = (st, 0)) := by
  constructor <;> intro h <;> simp [ov13855_set_stream, h]

theorem ov13855_set_stream_idempotent_witness :
    ov13855_set_stream ⟨fun _ => true, fun _ => 0⟩ 0 [] []
      ⟨true, 1, ov13855_init_ctrls, ⟨0, []⟩⟩ true =
      (⟨true, 1, ov13855_init_ctrls, ⟨0, []⟩⟩, 0) ∧
    ov13855_set_stream ⟨fun _ => true, fun _ => 0⟩ 0 [] []
      ⟨false, 0, ov13855_init_ctrls, ⟨0, []⟩⟩ false =
      (⟨false, 0, ov13855_init_ctrls, ⟨0, []⟩⟩, 0) :=
  ⟨(ov13855_set_stream_idempotent ⟨fun _ => true, fun _ => 0⟩ 0 [] []
      ⟨true, 1, ov13855_init_ctrls, ⟨0, []⟩⟩).1 rfl,
   (ov13855_set_stream_idempotent ⟨fun _ => true, fun _ => 0⟩ 0 [] []
      ⟨false, 0, ov13855_init_ctrls, ⟨0, []⟩⟩).2 rfl⟩

/-! ### Power reference counting (claim C6) -/

/-- Claim C6, counterexample to "the count is always ≥ 0 after any sequence of
enable/disable calls": a single `s_power(off)` from the freshly initialised
state drives the count to -1 (the `WARN_ON(ov13855->power_count < 0)` case). -/
theorem ov13855_s_power_count_negative_counterexample :
    (ov13855_s_power true ⟨0, []⟩ false).1.power_count = -1 := by decide

/-- Claim C6, amended: the power sequencer is invoked exactly at the 0→1 and
1→0 boundaries (`power_count == !on`), every other call only moves the count;
and the count stays ≥ 0 provided disables are only issued while it is
positive (balanced usage). -/
theorem ov13855_s_power_boundary_invariant (hw_ok : Bool) (st : PowerState)
    («on» : Bool) (hpos : 0 ≤ st.power_count)
    (hoff : «on» = false → 1 ≤ st.power_count) :
    0 ≤ (ov13855_s_power hw_ok st «on»).1.power_count ∧
    ((ov13855_s_power hw_ok st «on»).1.set_power_calls =
        st.set_power_calls ++ [«on»] ↔
      st.power_count = (if «on» then 0 else 1)) ∧
    (st.power_count ≠ (if «on» then 0 else 1) →
      (ov13855_s_power hw_ok st «on»).1 =
        { st with power_count := st.power_count + (if «on» then 1 else -1) } ∧
      (ov13855_s_power hw_ok st «on»).2 = 0) := by
  unfold ov13855_s_power
  rcases «on» with _ | _
  · have h1 : 1 ≤ st.power_count := hoff rfl
    split_ifs with hc <;>
      simp_all <;> omega
  · split_ifs with hc hfail <;> simp_all <;> omega

theorem ov13855_s_power_boundary_invariant_witness :
    0 ≤ (ov13855_s_power true ⟨1, [true]⟩ false).1.power_count ∧
    ((ov13855_s_power true ⟨1, [true]⟩ false).1.set_power_calls =
      [true] ++ [false] ↔ (1 : Int) = (if false then 0 else 1)) := by
  have h := ov13855_s_power_boundary_invariant true ⟨1, [true]⟩ false
    (by decide) (fun _ => by decide)
  exact ⟨h.1, h.2.1⟩

/-! ### Test pattern control (claim C7) -/

/-- Claim C7: the code as written contradicts "bit 7 is cleared when the
requested value is 0": the hardcoded `pattern = 1;` makes a requested value of
0 (menu entry "Disabled") write `0x80` — enable bit set, index 0 — and it also
discards any nonzero requested index (a request for pattern 3 ends up as
index 0). -/
theorem ov13855_test_pattern_zero_enables :
    ov13855_test_pattern_regval 0 0 = 0x80 ∧
    Nat.testBit (ov13855_test_pattern_regval 0 0) 7 = true ∧
    ov13855_test_pattern_regval 0x03 3 = 0x80 := by decide

/-! ### Exposure write and deferred replay (claim C8) -/

/-- Claim C8: a powered exposure set immediately issues one bus transaction
writing `value << 4` to the 24-bit register 0x3500; an unpowered set performs
no transaction and returns success; and the full control replay that
`ov13855_start_streaming` runs contains the exposure write (with the value the
control holds after the vblank propagation). -/
theorem ov13855_set_ctrl_exposure_write :
    (∀ (o : BusOracle) (m : Ov13855Mode) (e : CtrlRange) (v : Int)
        (s : BusState), o.ok s.n = true →
      ov13855_set_ctrl o true m e CtrlId.exposure v s =
        ({ n := s.n + 1,
           trace := s.trace ++
             [⟨false, OV13855_REG_EXPOSURE, OV13855_REG_VALUE_24BIT,
               u32ofInt (v * 2 ^ 4) % 2 ^ 32⟩] }, e, 0)) ∧
    (∀ (o : BusOracle) (m : Ov13855Mode) (e : CtrlRange) (v : Int)
        (s : BusState),
      ov13855_set_ctrl o false m e CtrlId.exposure v s = (s, e, 0)) ∧
    (∀ (o : BusOracle) (d : DriverCtrls) (s : BusState),
      (∀ k, o.ok k = true) →
      Txn.mk false OV13855_REG_EXPOSURE OV13855_REG_VALUE_24BIT
          (u32ofInt ((ov13855_set_ctrl_vblank_propagate d.cur_mode d.exposure
            d.vblank.val).val * 2 ^ 4) % 2 ^ 32) ∈
        (ov13855_ctrl_handler_setup o d s).1.trace) := by
  refine ⟨?_, ?_, ?_⟩
  · intro o m e v s h
    simp [ov13855_set_ctrl, reg_write, OV13855_REG_VALUE_24BIT, h]
  · intro o m e v s
    rfl
  · intro o d s hok
    simp [ov13855_ctrl_handler_setup, ov13855_set_ctrl,
      ov13855_enable_test_pattern, reg_write, reg_read,
      OV13855_REG_VALUE_24BIT, OV13855_REG_VALUE_16BIT,
      OV13855_REG_VALUE_08BIT, hok]

theorem ov13855_set_ctrl_exposure_write_witness :
    ov13855_set_ctrl ⟨fun _ => true, fun _ => 0⟩ true (modeAt 0)
      ⟨4, 3206, 1, 1600, 1600⟩ CtrlId.exposure 100 ⟨0, []⟩ =
      (⟨1, [⟨false, OV13855_REG_EXPOSURE, OV13855_REG_VALUE_24BIT,
        u32ofInt (100 * 2 ^ 4) % 2 ^ 32⟩]⟩, ⟨4, 3206, 1, 1600, 1600⟩, 0) :=
  ov13855_set_ctrl_exposure_write.1 ⟨fun _ => true, fun _ => 0⟩ (modeAt 0)
    ⟨4, 3206, 1, 1600, 1600⟩ 100 ⟨0, []⟩ rfl

/-! ### Write transaction shape (claim C9) -/

/-- Claim C9: for widths 1..4 the write buffer is exactly `2 + len` bytes —
big-endian address first, then the low `len` bytes of the value in big-endian
order (byte `i` is `val >> 8*(len-1-i)`) — and the call succeeds exactly when
the bus reports `2 + len` bytes transferred, failing with `-EIO` otherwise;
widths above 4 are rejected with `-EINVAL`. -/
theorem ov13855_write_reg_transaction :
    (∀ (send : List Nat → Int) (reg len val : Nat), 1 ≤ len → len ≤ 4 →
      (ov13855_write_reg_buf reg len val).length = 2 + len ∧
      (ov13855_write_reg_buf reg len val).take 2 =
        [reg / 2 ^ 8 % 2 ^ 8, reg % 2 ^ 8] ∧
      (∀ i, i < len → (ov13855_write_reg_buf reg len val).getD (2 + i) 0 =
        val % 2 ^ 32 / 2 ^ (8 * (len - 1 - i)) % 2 ^ 8) ∧
      (send (ov13855_write_reg_buf reg len val) = (len : Int) + 2 →
        ov13855_write_reg send reg len val = 0) ∧
      (send (ov13855_write_reg_buf reg len val) ≠ (len : Int) + 2 →
        ov13855_write_reg send reg len val = - EIO)) ∧
    (∀ (send : List Nat → Int) (reg len val : Nat), len > 4 →
      ov13855_write_reg send reg len val = -EINVAL) := by
  refine ⟨?_, ?_⟩
  · intro send reg len val h1 h2
    have h4 : ¬ (len > 4) := by omega
    refine ⟨?_, ?_, ?_, ?_, ?_⟩
    · interval_cases len <;> simp [ov13855_write_reg_buf, be32_bytes]
    · simp [ov13855_write_reg_buf]
    · intro i hi
      interval_cases len <;> interval_cases i <;>
        simp [ov13855_write_reg_buf, be32_bytes] <;> norm_num
    · intro hsend
      simp [ov13855_write_reg, h4, hsend]
    · intro hsend
      simp [ov13855_write_reg, h4, hsend]
  · intro send reg len val h
    simp [ov13855_write_reg, h]

theorem ov13855_write_reg_transaction_witness :
    ov13855_write_reg (fun b => (b.length : Int)) 0x3500 2 0x1234 = 0 ∧
    (ov13855_write_reg_buf 0x3500 2 0x1234).length = 2 + 2 := by
  have h := ov13855_write_reg_transaction.1 (fun b => (b.length : Int))
    0x3500 2 0x1234 (by norm_num) (by norm_num)
  exact ⟨h.2.2.2.1 (by decide), h.1⟩

/-! ### Width 0 is accepted (claim C10) -/

/-- Claim C10: both transport functions accept width 0 — a width-0 write sends
only the two address bytes and never returns `-EINVAL`, a width-0 read issues
a 0-byte read returning value 0 — while widths strictly greater than 4 are
rejected with `-EINVAL` by both. -/
theorem ov13855_width_zero_accepted :
    (∀ (send : List Nat → Int) (reg val : Nat),
      ov13855_write_reg_buf reg 0 val = [reg / 2 ^ 8 % 2 ^ 8, reg % 2 ^ 8] ∧
      ov13855_write_reg send reg 0 val ≠ -EINVAL) ∧
    (∀ (bytes : List Nat) (reg : Nat),
      ov13855_read_reg true bytes reg 0 = (0, 0)) ∧
    (∀ (ok : Bool) (bytes : List Nat) (send : List Nat → Int)
        (reg len val : Nat), len > 4 →
      ov13855_read_reg ok bytes reg len = (-EINVAL, 0) ∧
      ov13855_write_reg send reg len val = -EINVAL) := by
  refine ⟨?_, ?_, ?_⟩
  · intro send reg val
    refine ⟨by simp [ov13855_write_reg_buf, be32_bytes], ?_⟩
    unfold ov13855_write_reg
    norm_num
    split_ifs <;> decide
  · intro bytes reg
    simp [ov13855_read_reg, List.replicate]
  · intro ok bytes send reg len val h
    constructor <;> simp [ov13855_read_reg, ov13855_write_reg, h]

theorem ov13855_width_zero_accepted_witness :
    ov13855_read_reg true [] 0x300a 0 = (0, 0) ∧
    ov13855_read_reg true [1, 2] 0x300a 5 = (-EINVAL, 0) :=
  ⟨ov13855_width_zero_accepted.2.1 [] 0x300a,
   (ov13855_width_zero_accepted.2.2 true [1, 2] (fun _ => 0) 0x300a 5 0
     (by norm_num)).1⟩

end OV13855
